import Mathlib

/-!
Shallow embedding of the adtools wrapper (`src/index.ts` and the full module
`src/unnamed/part_001`): promise-based helper functions over a third-party
ActiveDirectory client.

Modelling conventions:
* The `ActiveDirectory` instance is the mutable session state `AD`; an async
  action is a state-passing function `AD → Except RejectVal α × AD`.  A
  resolved promise is `Except.ok`, a rejected promise is `Except.error`:
  in an `async` function, `await` on a rejecting promise aborts the rest of
  the body and propagates the rejection, which the state-passing `match`
  encodes directly.
* The delegated library methods (`directory.find`, `directory.findUser`,
  `directory.findGroup`, `ad.authenticate`) are not part of this repository;
  each wrapper takes the delegated behaviour as an explicit function
  parameter from the session state (so the library can observe the current
  `baseDN`) and the call's argument.  `promisify` turns the node callback
  `(err, value)` into rejection with `err` when `err` is truthy and
  resolution with `value` otherwise, which the `Except Err JSVal` codomain
  encodes.
* JavaScript values that the wrapper can resolve to are `JSVal`:
  `null`, `undefined`, the library's results object (the wrapper only reads
  its `other` array), a single entry, or an array of entries.
-/

namespace Adtools

/-- A JavaScript rejection value: an `Error` object (carrying its message),
a plain string (the code rejects with the literal `'Authentication failed'`),
or a `TypeError` thrown by a property access on a non-object. -/
inductive RejectVal where
  | error (e : String)
  | str (s : String)
  | typeError (msg : String)
deriving DecidableEq

/-- An error handed to a callback / catch handler, by its message. -/
abbrev Err := String

/-- A directory entry: attribute name/value pairs (an attribute may occur
several times, as multi-valued LDAP attributes do). -/
abbrev Entry := List (String × String)

/-- The results object the delegated `directory.find` resolves with; the
wrapper reads only its `other` array. -/
structure Results where
  other : List Entry
deriving DecidableEq

/-- A JavaScript value the wrapper's promises can resolve to. -/
inductive JSVal where
  | null
  | undefined
  | obj (r : Results)
  | entry (e : Entry)
  | list (l : List Entry)
deriving DecidableEq

/-- The `ActiveDirectory` instance: the session state the wrapper constructs
in `bind` and mutates in `swapBaseThen`.  `baseDN` is `Option String`
because `findOUs(directory)` assigns `undefined` to it during the swap. -/
structure AD where
  url : String
  username : String
  password : String
  baseDN : Option String
  userAttributes : List String
  groupAttributes : List String
deriving DecidableEq

/-- An async action on the shared `ActiveDirectory` instance: given the
state, it either resolves (`Except.ok`) or rejects (`Except.error`), and
leaves a final state. -/
abbrev P (α : Type) := AD → Except RejectVal α × AD

/-- JavaScript truthiness on the values at hand: `null` and `undefined` are
falsy, objects and arrays (even empty) are truthy. -/
def isFalsy : JSVal → Bool
  | .null => true
  | .undefined => true
  | _ => false

/-- JavaScript array indexing: `l[i]` is the element when in range and
`undefined` when out of bounds. -/
def jsIndex (l : List Entry) (i : Nat) : JSVal :=
  match l.get? i with
  | some e => .entry e
  | none => .undefined

/-- The instance `new ActiveDirectory({ url, baseDN, username, password,
attributes: { user: ['*'], group: ['*'] } })` constructed by `bind`. -/
def mkAD (url username password baseDN : String) : AD :=
  ⟨url, username, password, some baseDN, ["*"], ["*"]⟩

/-- `bind(url, username, password, baseDN)`: constructs the instance, then
`ad.authenticate(username, password, (err, auth) => ...)`; the callback
rejects with `err` when truthy, rejects with the string
`'Authentication failed'` when `auth` is falsy, and resolves with `ad`
otherwise.  `authenticate` is the delegated library behaviour, giving the
callback's `(err, auth)` arguments for the supplied credentials. -/
def bind (authenticate : String → String → Option Err × Bool)
    (url username password baseDN : String) : Except RejectVal AD :=
  match authenticate username password with
  | (some e, _) => .error (.error e)
  | (none, false) => .error (.str "Authentication failed")
  | (none, true) => .ok (mkAD url username password baseDN)

/-- `find(directory, query, err?)`:
`promisify(directory.find.bind(directory))(query).catch(err || (() => null))`.
When the delegated call resolves, its value passes through; when it rejects,
the catch handler (the supplied `err`, else the default `() => null`) is
invoked with the error and the promise resolves to the handler's return
value.  `find` therefore never rejects. -/
def find (libFind : AD → String → Except Err JSVal) (query : String)
    (err : Option (Err → JSVal)) : P JSVal := fun d =>
  match libFind d query with
  | .ok v => (.ok v, d)
  | .error e =>
    match err with
    | some h => (.ok (h e), d)
    | none => (.ok .null, d)

/-- `swapBaseThen(directory, target, execute)`: saves `directory.baseDN`,
overwrites it with `target`, awaits `execute()`, restores the saved value,
and returns the result.  If `execute()` rejects, the `await` aborts the
function there: the restore line never runs and the rejection propagates. -/
def swapBaseThen {α : Type} (target : Option String) (execute : P α) : P α := fun d =>
  let original := d.baseDN
  let d1 : AD := { d with baseDN := target }
  match execute d1 with
  | (.ok r, d2) => (.ok r, { d2 with baseDN := original })
  | (.error e, d2) => (.error e, d2)

/-- `findAt(directory, query, baseDN, err?)`:
`swapBaseThen(directory, baseDN, () => find(directory, query, err))`. -/
def findAt (libFind : AD → String → Except Err JSVal) (query : String)
    (baseDN : String) (err : Option (Err → JSVal)) : P JSVal :=
  swapBaseThen (some baseDN) (find libFind query err)

/-- The template string `` `(&(objectClass=organizationalUnit)(ou=${name}))` ``
used by `findOU`. -/
def findOUFilter (name : String) : String :=
  "(&(objectClass=organizationalUnit)(ou=" ++ name ++ "))"

/-- The constant filter `'(objectClass=organizationalUnit)'` used by `findOUs`. -/
def allOUFilter : String := "(objectClass=organizationalUnit)"

/-- The template string `` `(&(objectClass=computer)(cn=${name}))` `` used by
`findComputer`. -/
def findComputerFilter (name : String) : String :=
  "(&(objectClass=computer)(cn=" ++ name ++ "))"

/-- The constant filter `'(objectClass=computer)'` used by `findComputersByOU`. -/
def allComputerFilter : String := "(objectClass=computer)"

/-- `findOU(directory, name, err?)`: awaits `find` on the OU template, returns
`null` when the result is falsy, else `results.other[0]`.  Reading `.other`
of a truthy non-object would throw a `TypeError` in JavaScript, which the
last branch records. -/
def findOU (libFind : AD → String → Except Err JSVal) (name : String)
    (err : Option (Err → JSVal)) : P JSVal := fun d =>
  match find libFind (findOUFilter name) err d with
  | (.ok v, d') =>
    if isFalsy v then (.ok .null, d')
    else
      match v with
      | .obj r => (.ok (jsIndex r.other 0), d')
      | _ => (.error (.typeError "cannot read properties: other"), d')
  | (.error e, d') => (.error e, d')

/-- `findOUs(directory, baseDN?, err?)`: runs `find` on the all-OUs filter
under `swapBaseThen(directory, baseDN, ...)` (when `baseDN` is omitted the
swap writes `undefined`), returns `null` when the result is falsy, else the
whole `results.other` array.  Reading `.other` of a truthy value that is not
a results object yields `undefined` in JavaScript (property access on a
truthy value does not throw), which the last branch records. -/
def findOUs (libFind : AD → String → Except Err JSVal) (baseDN : Option String)
    (err : Option (Err → JSVal)) : P JSVal := fun d =>
  match swapBaseThen baseDN (find libFind allOUFilter err) d with
  | (.ok v, d') =>
    if isFalsy v then (.ok .null, d')
    else
      match v with
      | .obj r => (.ok (.list r.other), d')
      | _ => (.ok .undefined, d')
  | (.error e, d') => (.error e, d')

/-- `findUser(directory, username, err?)`:
`promisify(directory.findUser.bind(directory))(username).catch(err || (() => null))`. -/
def findUser (libFindUser : AD → String → Except Err JSVal) (username : String)
    (err : Option (Err → JSVal)) : P JSVal := fun d =>
  match libFindUser d username with
  | .ok v => (.ok v, d)
  | .error e =>
    match err with
    | some h => (.ok (h e), d)
    | none => (.ok .null, d)

/-- `findGroup(directory, group, err?)`:
`promisify(directory.findGroup.bind(directory))(group).catch(err || (() => null))`. -/
def findGroup (libFindGroup : AD → String → Except Err JSVal) (group : String)
    (err : Option (Err → JSVal)) : P JSVal := fun d =>
  match libFindGroup d group with
  | .ok v => (.ok v, d)
  | .error e =>
    match err with
    | some h => (.ok (h e), d)
    | none => (.ok .null, d)

/-- `findComputer(directory, name, err?)`: awaits `find` on the computer
template, returns `null` when the result is falsy, else `results.other[0]`. -/
def findComputer (libFind : AD → String → Except Err JSVal) (name : String)
    (err : Option (Err → JSVal)) : P JSVal := fun d =>
  match find libFind (findComputerFilter name) err d with
  | (.ok v, d') =>
    if isFalsy v then (.ok .null, d')
    else
      match v with
      | .obj r => (.ok (jsIndex r.other 0), d')
      | _ => (.error (.typeError "cannot read properties: other"), d')
  | (.error e, d') => (.error e, d')

/-- `findComputersByOU(directory, dn, err?)`: runs `find` on the all-computers
filter under `swapBaseThen(directory, dn, ...)`, returns `null` when the
result is falsy, else the whole `results.other` array.  As in `findOUs`,
reading `.other` of a truthy non-results value yields `undefined` rather
than throwing. -/
def findComputersByOU (libFind : AD → String → Except Err JSVal) (dn : String)
    (err : Option (Err → JSVal)) : P JSVal := fun d =>
  match swapBaseThen (some dn) (find libFind allComputerFilter err) d with
  | (.ok v, d') =>
    if isFalsy v then (.ok .null, d')
    else
      match v with
      | .obj r => (.ok (.list r.other), d')
      | _ => (.ok .undefined, d')
  | (.error e, d') => (.error e, d')

/-- A delegated `find` behaviour that reports the `baseDN` the instance had
while the query executed: the query result carries the observed base. -/
def baseProbe : AD → String → Except Err JSVal := fun d _ =>
  .ok (.obj ⟨[[("seenBase", d.baseDN.getD "undefined")]]⟩)

/-- A delegated `find` behaviour that reports the filter string it was
invoked with: the query result carries the received query. -/
def queryProbe : AD → String → Except Err JSVal := fun _ q =>
  .ok (.obj ⟨[[("query", q)]]⟩)

/-- Modelled from the spec: the external directory boundary evaluates
"filter strings" — "a boolean query expression over object attributes"
(spec glossary and section 6) — against entries; this repository only builds
the strings and delegates their evaluation.  A filter is a conjunction or an
attribute-equality test, the two forms the wrapper emits. -/
inductive Filter where
  | eq (attr : String) (value : String)
  | and (fs : List Filter)

mutual

/-- Modelled from the spec: a filter holds of an entry when every conjunct
does, and an equality test holds when the entry carries that
attribute/value pair. -/
def evalFilter : Filter → Entry → Bool
  | .eq a v, e => decide ((a, v) ∈ e)
  | .and fs, e => evalAll fs e

/-- All filters in the list hold of the entry. -/
def evalAll : List Filter → Entry → Bool
  | [], _ => true
  | f :: fs, e => evalFilter f e && evalAll fs e

end

/-- Splits a character list at the first occurrence of `stop`: the part
before it, and the remainder starting with `stop` (or `[]` if absent). -/
def takeUntil (stop : Char) : List Char → List Char × List Char
  | [] => ([], [])
  | c :: cs =>
    if c = stop then ([], c :: cs)
    else
      let p := takeUntil stop cs
      (c :: p.1, p.2)

mutual

/-- Modelled from the spec: parses one filter of the LDAP-like filter
grammar the wrapper emits — `(&f1f2...)` or `(attr=value)` — returning the
filter and the unconsumed remainder.  `fuel` bounds recursion depth. -/
def parseOne : Nat → List Char → Option (Filter × List Char)
  | 0, _ => none
  | fuel + 1, '(' :: '&' :: cs =>
    match parseMany fuel cs with
    | some (fs, ')' :: rest) => some (.and fs, rest)
    | _ => none
  | _ + 1, '(' :: cs =>
    let ap := takeUntil '=' cs
    match ap.2 with
    | '=' :: rest2 =>
      let vp := takeUntil ')' rest2
      match vp.2 with
      | ')' :: rest4 => some (.eq (String.mk ap.1) (String.mk vp.1), rest4)
      | _ => none
    | _ => none
  | _, _ => none

/-- Parses a maximal sequence of juxtaposed filters (each starting with
`'('`), returning them and the unconsumed remainder. -/
def parseMany : Nat → List Char → Option (List Filter × List Char)
  | 0, _ => none
  | fuel + 1, '(' :: cs =>
    match parseOne fuel ('(' :: cs) with
    | some (f, rest) =>
      match parseMany fuel rest with
      | some (fs, rest2) => some (f :: fs, rest2)
      | none => none
    | none => none
  | _ + 1, cs => some ([], cs)

end

/-- Modelled from the spec: a filter string denotes a filter when it parses
in full to one. -/
def parseFilter (s : String) : Option Filter :=
  match parseOne (2 * s.data.length + 2) s.data with
  | some (f, []) => some f
  | _ => none

/-- The catch handler makes `find` resolve on every delegated outcome, and
`find` itself never changes the session state. -/
theorem find_eq (libF : AD → String → Except Err JSVal) (q : String)
    (err : Option (Err → JSVal)) (d : AD) :
    find libF q err d
      = (.ok (match libF d q with
              | .ok v => v
              | .error e =>
                match err with
                | some h => h e
                | none => .null), d) := by
  unfold find
  rcases libF d q with e | v
  · rcases err with _ | h <;> rfl
  · rfl

/-- C2: when the inner action resolves, swapBaseThen restores the baseDN the
instance had before the call and changes no other field itself: its result
state is exactly the state the inner action produced, with baseDN set back
to the original value. -/
theorem swapBaseThen_restores_baseDN {α : Type} (execute : P α) (target : Option String)
    (d : AD) (r : α) (d2 : AD)
    (hexe : execute { d with baseDN := target } = (.ok r, d2)) :
    swapBaseThen target execute d = (.ok r, { d2 with baseDN := d.baseDN }) := by
  simp only [swapBaseThen]
  rw [hexe]

/-- Witness for C2 at a concrete instance, target and resolving action. -/
theorem swapBaseThen_restores_baseDN_witness :
    swapBaseThen (some "OU=T,DC=x") (fun s => (Except.ok (7 : Nat), s)) (mkAD "u" "n" "p" "OU=A,DC=x")
      = (.ok 7, { ({ mkAD "u" "n" "p" "OU=A,DC=x" with baseDN := some "OU=T,DC=x" } : AD) with
                    baseDN := (mkAD "u" "n" "p" "OU=A,DC=x").baseDN }) :=
  swapBaseThen_restores_baseDN (fun s => (Except.ok (7 : Nat), s)) (some "OU=T,DC=x")
    (mkAD "u" "n" "p" "OU=A,DC=x") 7
    ({ mkAD "u" "n" "p" "OU=A,DC=x" with baseDN := some "OU=T,DC=x" }) rfl

/-- C9: when the inner action rejects, the rejection propagates out of
swapBaseThen unchanged and no restore happens: if the inner action left the
baseDN at the swapped target, the instance stays at the target value. -/
theorem swapBaseThen_not_atomic_on_error {α : Type} (execute : P α) (target : String)
    (d : AD) (e : RejectVal) (d2 : AD)
    (hexe : execute { d with baseDN := some target } = (.error e, d2))
    (hbase : d2.baseDN = some target) :
    swapBaseThen (some target) execute d = (.error e, d2)
      ∧ (swapBaseThen (some target) execute d).2.baseDN = some target := by
  simp only [swapBaseThen]
  rw [hexe]
  exact ⟨rfl, hbase⟩

/-- Witness for C9 at a concrete instance, target and rejecting action. -/
theorem swapBaseThen_not_atomic_on_error_witness :
    swapBaseThen (some "OU=T,DC=x") (fun s => ((Except.error (.error "boom") : Except RejectVal JSVal), s))
        (mkAD "u" "n" "p" "OU=A,DC=x")
      = (.error (.error "boom"), { mkAD "u" "n" "p" "OU=A,DC=x" with baseDN := some "OU=T,DC=x" })
      ∧ (swapBaseThen (some "OU=T,DC=x")
          (fun s => ((Except.error (.error "boom") : Except RejectVal JSVal), s))
          (mkAD "u" "n" "p" "OU=A,DC=x")).2.baseDN = some "OU=T,DC=x" :=
  swapBaseThen_not_atomic_on_error
    (fun s => ((Except.error (.error "boom") : Except RejectVal JSVal), s)) "OU=T,DC=x"
    (mkAD "u" "n" "p" "OU=A,DC=x") (.error "boom")
    ({ mkAD "u" "n" "p" "OU=A,DC=x" with baseDN := some "OU=T,DC=x" }) rfl rfl

/-- C3: when the delegated call fails and no err handler is supplied, find,
findUser and findGroup resolve (do not reject) to null, and the error is not
otherwise surfaced: the promise result is exactly null and the state is
untouched. -/
theorem failures_default_to_null (libF libU libG : AD → String → Except Err JSVal)
    (q u g : String) (d : AD) (e1 e2 e3 : Err)
    (h1 : libF d q = .error e1) (h2 : libU d u = .error e2) (h3 : libG d g = .error e3) :
    find libF q none d = (.ok .null, d)
      ∧ findUser libU u none d = (.ok .null, d)
      ∧ findGroup libG g none d = (.ok .null, d) := by
  refine ⟨?_, ?_, ?_⟩ <;> simp [find, findUser, findGroup, h1, h2, h3]

/-- Witness for C3 at concrete failing delegated calls. -/
theorem failures_default_to_null_witness :
    find (fun _ _ => .error "down") "(cn=x)" none (mkAD "u" "n" "p" "b") = (.ok .null, mkAD "u" "n" "p" "b")
      ∧ findUser (fun _ _ => .error "down") "alice" none (mkAD "u" "n" "p" "b") = (.ok .null, mkAD "u" "n" "p" "b")
      ∧ findGroup (fun _ _ => .error "down") "staff" none (mkAD "u" "n" "p" "b") = (.ok .null, mkAD "u" "n" "p" "b") :=
  failures_default_to_null (fun _ _ => .error "down") (fun _ _ => .error "down")
    (fun _ _ => .error "down") "(cn=x)" "alice" "staff" (mkAD "u" "n" "p" "b")
    "down" "down" "down" rfl rfl rfl

/-- C10: when the delegated call fails and a custom err handler is supplied,
the handler receives the error and the promise resolves to the handler's
return value; for a void handler that value is undefined, not null. -/
theorem custom_err_handler_value (libF libU libG : AD → String → Except Err JSVal)
    (q u g : String) (d : AD) (e1 e2 e3 : Err) (hnd : Err → JSVal)
    (h1 : libF d q = .error e1) (h2 : libU d u = .error e2) (h3 : libG d g = .error e3) :
    find libF q (some hnd) d = (.ok (hnd e1), d)
      ∧ findUser libU u (some hnd) d = (.ok (hnd e2), d)
      ∧ findGroup libG g (some hnd) d = (.ok (hnd e3), d)
      ∧ (find libF q (some fun _ => JSVal.undefined) d = (.ok .undefined, d)
          ∧ JSVal.undefined ≠ JSVal.null) := by
  refine ⟨?_, ?_, ?_, ?_, ?_⟩ <;>
    simp [find, findUser, findGroup, h1, h2, h3]

/-- Witness for C10 at a concrete failing delegated call and handler. -/
theorem custom_err_handler_value_witness :
    find (fun _ _ => .error "down") "(cn=x)" (some fun e => .entry [("handled", e)]) (mkAD "u" "n" "p" "b")
        = (.ok (.entry [("handled", "down")]), mkAD "u" "n" "p" "b")
      ∧ find (fun _ _ => .error "down") "(cn=x)" (some fun _ => JSVal.undefined) (mkAD "u" "n" "p" "b")
        = (.ok .undefined, mkAD "u" "n" "p" "b") :=
  ⟨(custom_err_handler_value (fun _ _ => .error "down") (fun _ _ => .error "down")
      (fun _ _ => .error "down") "(cn=x)" "alice" "staff" (mkAD "u" "n" "p" "b")
      "down" "down" "down" (fun e => .entry [("handled", e)]) rfl rfl rfl).1,
   (custom_err_handler_value (fun _ _ => .error "down") (fun _ _ => .error "down")
      (fun _ _ => .error "down") "(cn=x)" "alice" "staff" (mkAD "u" "n" "p" "b")
      "down" "down" "down" (fun e => .entry [("handled", e)]) rfl rfl rfl).2.2.2.1⟩

/-- C4: bind resolves with the constructed instance exactly when authenticate
reports success; a reported error rejects with that error; a refusal with no
error rejects with the distinct string value 'Authentication failed', which
is never equal to an Error rejection. -/
theorem bind_distinguishes_failures (authenticate : String → String → Option Err × Bool)
    (url u p dn : String) :
    (bind authenticate url u p dn = .ok (mkAD url u p dn) ↔ authenticate u p = (none, true))
      ∧ (∀ e b, authenticate u p = (some e, b) → bind authenticate url u p dn = .error (.error e))
      ∧ (authenticate u p = (none, false) →
          bind authenticate url u p dn = .error (.str "Authentication failed"))
      ∧ (∀ e, RejectVal.str "Authentication failed" ≠ RejectVal.error e) := by
  rcases hA : authenticate u p with ⟨oe, b⟩
  refine ⟨?_, ?_, ?_, ?_⟩
  · cases oe <;> cases b <;> simp [bind, hA]
  · intro e b' hb
    injection hb with hb1 hb2
    subst hb1
    subst hb2
    simp [bind, hA]
  · intro hb
    injection hb with hb1 hb2
    subst hb1
    subst hb2
    simp [bind, hA]
  · intro e
    simp

/-- Witness for C4 at concrete authenticate behaviours: success, transport
error, and refusal. -/
theorem bind_distinguishes_failures_witness :
    bind (fun _ _ => (none, true)) "url" "u" "p" "dn" = .ok (mkAD "url" "u" "p" "dn")
      ∧ bind (fun _ _ => (some "net down", false)) "url" "u" "p" "dn" = .error (.error "net down")
      ∧ bind (fun _ _ => (none, false)) "url" "u" "p" "dn" = .error (.str "Authentication failed") :=
  ⟨(bind_distinguishes_failures (fun _ _ => (none, true)) "url" "u" "p" "dn").1.mpr rfl,
   (bind_distinguishes_failures (fun _ _ => (some "net down", false)) "url" "u" "p" "dn").2.1
     "net down" false rfl,
   (bind_distinguishes_failures (fun _ _ => (none, false)) "url" "u" "p" "dn").2.2.1 rfl⟩

/-- C5: on a successful delegated query with a nonempty other list, the
singular finders findOU and findComputer return its first element, while the
plural finders findOUs and findComputersByOU return the entire list. -/
theorem first_match_vs_all_match (libF : AD → String → Except Err JSVal)
    (r : Results) (e0 : Entry) (rest : List Entry) (name dn0 : String) (d : AD)
    (hlib : ∀ d' q', libF d' q' = .ok (.obj r)) (hother : r.other = e0 :: rest) :
    (findOU libF name none d).1 = .ok (.entry e0)
      ∧ (findComputer libF name none d).1 = .ok (.entry e0)
      ∧ (findOUs libF (some dn0) none d).1 = .ok (.list r.other)
      ∧ (findComputersByOU libF dn0 none d).1 = .ok (.list r.other) := by
  refine ⟨?_, ?_, ?_, ?_⟩ <;>
    simp [findOU, findComputer, findOUs, findComputersByOU, find, swapBaseThen,
      hlib, isFalsy, jsIndex, hother]

/-- Witness for C5 at a concrete successful query with one entry. -/
theorem first_match_vs_all_match_witness :
    (findOU (fun _ _ => .ok (.obj ⟨[[("cn", "A")]]⟩)) "X" none (mkAD "u" "n" "p" "b")).1
        = .ok (.entry [("cn", "A")])
      ∧ (findComputer (fun _ _ => .ok (.obj ⟨[[("cn", "A")]]⟩)) "X" none (mkAD "u" "n" "p" "b")).1
        = .ok (.entry [("cn", "A")])
      ∧ (findOUs (fun _ _ => .ok (.obj ⟨[[("cn", "A")]]⟩)) (some "OU=Q") none (mkAD "u" "n" "p" "b")).1
        = .ok (.list (⟨[[("cn", "A")]]⟩ : Results).other)
      ∧ (findComputersByOU (fun _ _ => .ok (.obj ⟨[[("cn", "A")]]⟩)) "OU=Q" none (mkAD "u" "n" "p" "b")).1
        = .ok (.list (⟨[[("cn", "A")]]⟩ : Results).other) :=
  first_match_vs_all_match (fun _ _ => .ok (.obj ⟨[[("cn", "A")]]⟩)) ⟨[[("cn", "A")]]⟩
    [("cn", "A")] [] "X" "OU=Q" (mkAD "u" "n" "p" "b") (fun _ _ => rfl) rfl

/-- C7: a delegated query that succeeds but matches nothing — its results
object carries an empty other list — makes find resolve with the results
object (not an error), and makes findOUs and findComputersByOU resolve with
an empty list, not an error. -/
theorem empty_match_yields_empty_list (libF : AD → String → Except Err JSVal)
    (r : Results) (q dn0 : String) (d : AD)
    (hlib : ∀ d' q', libF d' q' = .ok (.obj r)) (hempty : r.other = []) :
    find libF q none d = (.ok (.obj r), d)
      ∧ (findOUs libF (some dn0) none d).1 = .ok (.list [])
      ∧ (findComputersByOU libF dn0 none d).1 = .ok (.list []) := by
  refine ⟨?_, ?_, ?_⟩ <;>
    simp [find, findOUs, findComputersByOU, swapBaseThen, hlib, isFalsy, hempty]

/-- Witness for C7 at a concrete empty-result query. -/
theorem empty_match_yields_empty_list_witness :
    find (fun _ _ => .ok (.obj ⟨[]⟩)) "(cn=x)" none (mkAD "u" "n" "p" "b")
        = (.ok (.obj ⟨[]⟩), mkAD "u" "n" "p" "b")
      ∧ (findOUs (fun _ _ => .ok (.obj ⟨[]⟩)) (some "OU=Q") none (mkAD "u" "n" "p" "b")).1
        = .ok (.list [])
      ∧ (findComputersByOU (fun _ _ => .ok (.obj ⟨[]⟩)) "OU=Q" none (mkAD "u" "n" "p" "b")).1
        = .ok (.list []) :=
  empty_match_yields_empty_list (fun _ _ => .ok (.obj ⟨[]⟩)) ⟨[]⟩ "(cn=x)" "OU=Q"
    (mkAD "u" "n" "p" "b") (fun _ _ => rfl) rfl

/-- C8: a successful query whose other list is empty makes findOU and
findComputer return undefined — the out-of-bounds index of the empty array —
not null: the null-check only guards a falsy (failed) query result. -/
theorem empty_other_yields_undefined (libF : AD → String → Except Err JSVal)
    (r : Results) (name : String) (d : AD)
    (hlib : ∀ d' q', libF d' q' = .ok (.obj r)) (hempty : r.other = []) :
    (findOU libF name none d).1 = .ok .undefined
      ∧ (findComputer libF name none d).1 = .ok .undefined
      ∧ JSVal.undefined ≠ JSVal.null := by
  refine ⟨?_, ?_, ?_⟩ <;>
    simp [findOU, findComputer, find, hlib, isFalsy, jsIndex, hempty]

/-- Witness for C8 at a concrete empty-result query. -/
theorem empty_other_yields_undefined_witness :
    (findOU (fun _ _ => .ok (.obj ⟨[]⟩)) "X" none (mkAD "u" "n" "p" "b")).1 = .ok .undefined
      ∧ (findComputer (fun _ _ => .ok (.obj ⟨[]⟩)) "X" none (mkAD "u" "n" "p" "b")).1 = .ok .undefined
      ∧ JSVal.undefined ≠ JSVal.null :=
  empty_other_yields_undefined (fun _ _ => .ok (.obj ⟨[]⟩)) ⟨[]⟩ "X"
    (mkAD "u" "n" "p" "b") (fun _ _ => rfl) rfl

/-- C1 (amended): findAt, findOUs and findComputersByOU supply the base-DN
override by temporarily mutating the shared instance's baseDN: the delegated
query executes with the instance's baseDN equal to the override — a query
reading the instance during that window observes the override, as the
baseProbe results show — and once the inner query resolves the baseDN is
restored, so the final state equals the original instance. -/
theorem base_override_by_temporary_mutation (libF : AD → String → Except Err JSVal)
    (q b : String) (err : Option (Err → JSVal)) (d : AD) :
    (findAt libF q b err d).2 = d
      ∧ (findOUs libF (some b) err d).2 = d
      ∧ (findComputersByOU libF b err d).2 = d
      ∧ (findAt baseProbe q b none d).1 = .ok (.obj ⟨[[("seenBase", b)]]⟩)
      ∧ (findOUs baseProbe (some b) none d).1 = .ok (.list [[("seenBase", b)]])
      ∧ (findComputersByOU baseProbe b none d).1 = .ok (.list [[("seenBase", b)]]) := by
  rcases d with ⟨au, an, ap, ab, auA, agA⟩
  refine ⟨?_, ?_, ?_, ?_, ?_, ?_⟩
  · simp [findAt, swapBaseThen, find_eq]
  · simp only [findOUs, swapBaseThen, find_eq]
    split
    · rfl
    · split <;> rfl
  · simp only [findComputersByOU, swapBaseThen, find_eq]
    split
    · rfl
    · split <;> rfl
  · simp [findAt, swapBaseThen, find_eq, baseProbe]
  · simp [findOUs, swapBaseThen, find_eq, baseProbe, isFalsy]
  · simp [findComputersByOU, swapBaseThen, find_eq, baseProbe, isFalsy]

/-- C1 (counterexample to the claim as stated): on a concrete instance whose
baseDN is OU=A, a findAt call overriding to OU=B executes its delegated
query while the shared instance's baseDN reads OU=B — the overridden base DN
is visible on the instance during the query's execution, and differs from
the instance's own base DN. -/
theorem findAt_override_visible_cex :
    (findAt baseProbe "(cn=x)" "OU=B,DC=example" none
        (mkAD "ldap://dc" "user" "pw" "OU=A,DC=example")).1
        = .ok (.obj ⟨[[("seenBase", "OU=B,DC=example")]]⟩)
      ∧ (mkAD "ldap://dc" "user" "pw" "OU=A,DC=example").baseDN = some "OU=A,DC=example"
      ∧ (some "OU=B,DC=example" : Option String) ≠ some "OU=A,DC=example" := by
  refine ⟨rfl, rfl, by decide⟩

/-- Scanning up to a stop character that follows a list free of it finds
exactly that list. -/
theorem takeUntil_no_stop (stop : Char) (l r : List Char) (h : stop ∉ l) :
    takeUntil stop (l ++ stop :: r) = (l, stop :: r) := by
  induction l with
  | nil => simp [takeUntil]
  | cons c cs ih =>
    have hc : ¬ (c = stop) := fun hc => h (hc ▸ List.mem_cons_self c cs)
    have hcs : stop ∉ cs := fun hm => h (List.mem_cons_of_mem c hm)
    simp only [List.cons_append, takeUntil, if_neg hc]
    simp [List.append_eq, ih hcs]

/-- The character sequence of the computer filter template parses — for any
name free of the closing parenthesis — to the conjunction of the
objectClass=computer test and the cn test on the name, consuming the whole
input; any fuel with four headroom steps suffices. -/
theorem parseOne_computer_template (n : Nat) (l : List Char) (hl : ')' ∉ l) :
    parseOne (n + 4)
        ('(' :: '&' :: '(' :: 'o' :: 'b' :: 'j' :: 'e' :: 'c' :: 't' :: 'C' :: 'l' :: 'a' :: 's' :: 's'
          :: '=' :: 'c' :: 'o' :: 'm' :: 'p' :: 'u' :: 't' :: 'e' :: 'r' :: ')' :: '(' :: 'c' :: 'n' :: '='
          :: (l ++ [')', ')']))
      = some (.and [.eq "objectClass" "computer", .eq "cn" (String.mk l)], []) := by
  have hTU : takeUntil ')' (l ++ ')' :: [')']) = (l, ')' :: [')']) :=
    takeUntil_no_stop ')' l [')'] hl
  simp [parseOne, parseMany, takeUntil, hTU]

/-- The filter string findComputer builds denotes exactly the conjunction of
objectClass=computer and cn=name, for any name free of the closing
parenthesis. -/
theorem parseFilter_computer (l : List Char) (hl : ')' ∉ l) :
    parseFilter (findComputerFilter (String.mk l))
      = some (.and [.eq "objectClass" "computer", .eq "cn" (String.mk l)]) := by
  have hdata : (findComputerFilter (String.mk l)).data
      = '(' :: '&' :: '(' :: 'o' :: 'b' :: 'j' :: 'e' :: 'c' :: 't' :: 'C' :: 'l' :: 'a' :: 's' :: 's'
          :: '=' :: 'c' :: 'o' :: 'm' :: 'p' :: 'u' :: 't' :: 'e' :: 'r' :: ')' :: '(' :: 'c' :: 'n' :: '='
          :: (l ++ [')', ')']) := rfl
  have hlen : (findComputerFilter (String.mk l)).data.length = l.length + 30 := by
    rw [hdata]; simp
  unfold parseFilter
  rw [hlen, hdata]
  have hfuel : 2 * (l.length + 30) + 2 = 2 * l.length + 58 + 4 := by omega
  rw [hfuel, parseOne_computer_template (2 * l.length + 58) l hl]

/-- C6 (amended): for every name free of the closing parenthesis,
findComputer queries with exactly the template string — the queryProbe
conjunct shows the delegated find receives it — and that string denotes the
conjunction of objectClass=computer with cn=name, so (under the
spec-modelled filter semantics) every entry the filter matches carries the
objectClass computer value, even when an object of another class has the
same name.  Names containing a closing parenthesis must be excluded: a name
such as a)(cn=b makes the template denote a different, well-formed filter
with no cn-equals-the-name conjunct (LDAP filter injection). -/
theorem findComputer_filter_conjoins_objectClass (name : String) (hname : ')' ∉ name.data) :
    parseFilter (findComputerFilter name)
        = some (.and [.eq "objectClass" "computer", .eq "cn" name])
      ∧ (∀ (e : Entry) (f : Filter),
          parseFilter (findComputerFilter name) = some f → evalFilter f e = true →
            ("objectClass", "computer") ∈ e ∧ ("cn", name) ∈ e)
      ∧ (∀ d : AD, (findComputer queryProbe name none d).1
          = .ok (.entry [("query", findComputerFilter name)])) := by
  obtain ⟨l⟩ := name
  refine ⟨parseFilter_computer l hname, ?_, ?_⟩
  · intro e f hf he
    rw [parseFilter_computer l hname] at hf
    injection hf with hf
    subst hf
    simp [evalFilter, evalAll, Bool.and_eq_true, decide_eq_true_eq] at he
    exact he
  · intro d
    rfl

/-- Witness for C6 at the concrete name PC01 and an entry matching the
parsed filter. -/
theorem findComputer_filter_conjoins_objectClass_witness :
    parseFilter (findComputerFilter "PC01")
        = some (.and [.eq "objectClass" "computer", .eq "cn" "PC01"])
      ∧ (("objectClass", "computer") ∈ ([("objectClass", "computer"), ("cn", "PC01")] : Entry)
          ∧ ("cn", "PC01") ∈ ([("objectClass", "computer"), ("cn", "PC01")] : Entry)) :=
  ⟨(findComputer_filter_conjoins_objectClass "PC01" (by decide)).1,
   (findComputer_filter_conjoins_objectClass "PC01" (by decide)).2.1
     [("objectClass", "computer"), ("cn", "PC01")]
     (.and [.eq "objectClass" "computer", .eq "cn" "PC01"])
     ((findComputer_filter_conjoins_objectClass "PC01" (by decide)).1)
     (by decide)⟩

/-- C6 (counterexample to the claim as stated): at the concrete name
a)(cn=b, the filter string findComputer sends is
(&(objectClass=computer)(cn=a)(cn=b)), which denotes — under the
spec-modelled filter semantics — the well-formed three-conjunct filter
[objectClass=computer, cn=a, cn=b]: no conjunct tests cn against the given
name, and a concrete entry matches the filter although its cn attribute
never equals the given name, so the filter does not conjoin cn equal to the
given name for every name. -/
theorem findComputer_filter_injection_cex :
    findComputerFilter "a)(cn=b" = "(&(objectClass=computer)(cn=a)(cn=b))"
      ∧ parseFilter (findComputerFilter "a)(cn=b")
        = some (.and [.eq "objectClass" "computer", .eq "cn" "a", .eq "cn" "b"])
      ∧ evalFilter (.and [.eq "objectClass" "computer", .eq "cn" "a", .eq "cn" "b"])
          [("objectClass", "computer"), ("cn", "a"), ("cn", "b")] = true
      ∧ ("cn", "a)(cn=b") ∉ ([("objectClass", "computer"), ("cn", "a"), ("cn", "b")] : Entry) := by
  refine ⟨rfl, rfl, rfl, by decide⟩

end Adtools
